import Mathlib

/-!
Verification development for the insurance-claims triage system.

Shallow embedding of the core decision logic:
* `config.py`  — label vocabularies and risk thresholds;
* `tools.py`   — `RiskScoringTool.calculate_risk_score` (additive weighted
  rules, capped at 1, Python `round(x, 3)` on the result);
* `evaluation.py` — `RuleBasedSystem.process_claim` (severity banding and the
  priority-ordered action rule chain), `OneShotLLMSystem.process_claim` and
  `_parse_response`, `EvaluationSystem.evaluate_system` and
  `_calculate_metrics` (confusion matrices via scikit-learn semantics:
  samples whose true or predicted label is outside the fixed label list are
  ignored);
* `agent.py`   — `InsuranceClaimsAgent.process_claim` error path and
  `_parse_decision`;
* `logger.py`  — `ClaimsLogger.get_override_rate`.

Machine floats are modelled by exact rationals.  Every score reachable by the
scorer is a multiple of 1/20, so Python's banker's rounding to three decimals
(modelled by `pyRound3`) is the identity on reachable scores; this is proved,
not assumed (`pyRound3_eq_self_of_mult20`).  The LLM back end is opaque in the
source (one prompt string in, one free-text string out, or an exception); it
is modelled as an `Except String String` parameter.
-/

namespace Claims

/-- Label vocabulary `SEVERITY_LEVELS` from `config.py`. -/
def SEVERITY_LEVELS : List String := ["low", "medium", "high", "critical"]

/-- Label vocabulary `ACTIONS` from `config.py`. -/
def ACTIONS : List String := ["approve", "investigate", "deny", "escalate"]

/-- Threshold `RISK_THRESHOLD_HIGH` from `config.py`. -/
def RISK_THRESHOLD_HIGH : ℚ := 7/10

/-- Threshold `RISK_THRESHOLD_MEDIUM` from `config.py`. -/
def RISK_THRESHOLD_MEDIUM : ℚ := 2/5

/-- The fixed high-risk location list from `RiskScoringTool.calculate_risk_score`. -/
def high_risk_locations : List String := ["New York, NY", "Los Angeles, CA", "Chicago, IL"]

/-- Round a rational to the nearest integer, ties to even (IEEE / Python
`round` tie-breaking). -/
def roundHalfEven (q : ℚ) : ℤ :=
  if q - ⌊q⌋ < 1/2 then ⌊q⌋
  else if q - ⌊q⌋ > 1/2 then ⌊q⌋ + 1
  else if 2 ∣ ⌊q⌋ then ⌊q⌋ else ⌊q⌋ + 1

/-- Python `round(q, 3)`. -/
def pyRound3 (q : ℚ) : ℚ := (roundHalfEven (q * 1000) : ℚ) / 1000

/-- Result dictionary of `RiskScoringTool.calculate_risk_score` (the
`explanation` string is produced by `_generate_explanation`). -/
structure RiskAssessment where
  risk_score : ℚ
  risk_level : String
  risk_factors : List String
  explanation : String
deriving DecidableEq

/-- Running total accumulated by `calculate_risk_score` before the `min` cap.
Python truthiness of the optional arguments is modelled faithfully: a supplied
`coverage_limit` of `0`, `claimant_age` of `0`, or empty `location` string is
falsy and skips the rule, exactly as `if coverage_limit and ...`,
`if claimant_age:` and `if location and ...` do. -/
def rawRiskScore (claim_amount : ℚ) (prior_claims : ℤ) (policy_tenure_years : ℤ)
    (incident_to_report_days : ℤ) (coverage_limit : Option ℚ) (claimant_age : Option ℤ)
    (location : Option String) : ℚ :=
  (if claim_amount > 50000 then (3 : ℚ)/10 else 0) +
  (if prior_claims ≥ 3 then (1 : ℚ)/4 else 0) +
  (if policy_tenure_years < 1 then (3 : ℚ)/20 else 0) +
  (if incident_to_report_days > 30 then (3 : ℚ)/20 else 0) +
  (match coverage_limit with
   | some cl => if cl ≠ 0 ∧ claim_amount > cl * (4/5) then (1 : ℚ)/5 else 0
   | none => 0) +
  (match claimant_age with
   | some a => if a ≠ 0 ∧ (a < 25 ∨ a > 75) then (1 : ℚ)/10 else 0
   | none => 0) +
  (match location with
   | some loc => if loc ≠ "" ∧ loc ∈ high_risk_locations then (1 : ℚ)/20 else 0
   | none => 0)

/-- Factor names appended by `calculate_risk_score`, in source order. -/
def riskFactorList (claim_amount : ℚ) (prior_claims : ℤ) (policy_tenure_years : ℤ)
    (incident_to_report_days : ℤ) (coverage_limit : Option ℚ) (claimant_age : Option ℤ)
    (location : Option String) : List String :=
  (if claim_amount > 50000 then ["high_claim_amount"] else []) ++
  (if prior_claims ≥ 3 then ["multiple_prior_claims"] else []) ++
  (if policy_tenure_years < 1 then ["new_policy"] else []) ++
  (if incident_to_report_days > 30 then ["late_reporting"] else []) ++
  (match coverage_limit with
   | some cl => if cl ≠ 0 ∧ claim_amount > cl * (4/5) then ["claim_near_coverage_limit"] else []
   | none => []) ++
  (match claimant_age with
   | some a => if a ≠ 0 ∧ (a < 25 ∨ a > 75) then ["age_risk_factor"] else []
   | none => []) ++
  (match location with
   | some loc => if loc ≠ "" ∧ loc ∈ high_risk_locations then ["high_risk_location"] else []
   | none => [])

/-- The explanation string built by `RiskScoringTool._generate_explanation`. -/
def generate_explanation (risk_level : String) (factors : List String) : String :=
  if factors = [] then
    "Risk level is " ++ risk_level ++ ". No significant risk factors identified."
  else
    "Risk level is " ++ risk_level ++ ". Contributing factors: " ++
      String.intercalate (", ") factors ++ "."

/-- Embedding of `RiskScoringTool.calculate_risk_score`.  The risk tier is
computed from the capped, un-rounded score; the returned score is
`round(min(score, 1.0), 3)`, exactly as in the source. -/
def calculate_risk_score (claim_amount : ℚ) (prior_claims : ℤ) (policy_tenure_years : ℤ)
    (incident_to_report_days : ℤ) (coverage_limit : Option ℚ) (claimant_age : Option ℤ)
    (location : Option String) : RiskAssessment :=
  let s := min (rawRiskScore claim_amount prior_claims policy_tenure_years
      incident_to_report_days coverage_limit claimant_age location) 1
  let level := if s ≥ RISK_THRESHOLD_HIGH then "high"
    else if s ≥ RISK_THRESHOLD_MEDIUM then "medium" else "low"
  let factors := riskFactorList claim_amount prior_claims policy_tenure_years
      incident_to_report_days coverage_limit claimant_age location
  { risk_score := pyRound3 s
    risk_level := level
    risk_factors := factors
    explanation := generate_explanation level factors }

/-- Severity banding from `RuleBasedSystem.process_claim` (`evaluation.py`,
lines 53-60). -/
def determineSeverity (claim_amount : ℚ) : String :=
  if claim_amount < 5000 then "low"
  else if claim_amount < 25000 then "medium"
  else if claim_amount < 75000 then "high"
  else "critical"

/-- Priority-ordered action rule chain from `RuleBasedSystem.process_claim`
(`evaluation.py`, lines 63-72), first match wins. -/
def determineAction (severity : String) (risk_score : ℚ) (prior_claims : ℤ) : String :=
  if severity = "low" ∧ risk_score < 3/10 ∧ prior_claims < 2 then "approve"
  else if severity = "critical" ∨ risk_score ≥ 7/10 then "escalate"
  else if risk_score ≥ 4/10 ∨ prior_claims ≥ 3 then "investigate"
  else if severity = "medium" ∧ risk_score < 4/10 then "approve"
  else "investigate"

/-- A claim record as consumed by the decision strategies.  The incident and
report dates only ever enter the logic through the day difference the callers
compute up front (with `0` on a parse failure), so the difference is carried
directly.  Free-text fields that only feed prompt strings are elided. -/
structure Claim where
  claim_id : String
  claim_amount : ℚ
  prior_claims : ℤ
  policy_tenure_years : ℤ
  incident_to_report_days : ℤ
  claimant_age : ℤ
  location : String
  ground_truth_severity : String
  ground_truth_action : String
deriving DecidableEq

/-- Decision dictionary returned by a strategy's `process_claim`.  The Python
dictionaries differ in which keys they carry: only the agent sets `success`,
and only the rule-based system sets `risk_score`; absent keys are `none`. -/
structure Decision where
  claim_id : String
  severity : String
  action : String
  rationale : String
  success : Option Bool := none
  risk_score : Option ℚ := none
deriving DecidableEq

/-- Python's `str.lower()`, char-wise.  The label vocabularies and parsed
outputs of interest are ASCII, where `Char.toLower` agrees with Python. -/
def strToLower (s : String) : String := ⟨s.data.map Char.toLower⟩

/-- Character-list prefix test (Python string `startswith` on the char level). -/
def charPrefix : List Char → List Char → Bool
  | [], _ => true
  | _ :: _, [] => false
  | a :: as, b :: bs => a == b && charPrefix as bs

/-- Character-list contiguous-substring test. -/
def charInfix (sub : List Char) : List Char → Bool
  | [] => sub.isEmpty
  | b :: bs => charPrefix sub (b :: bs) || charInfix sub bs

/-- Python `sub in hay` on strings: contiguous substring containment. -/
def strContains (hay sub : String) : Bool := charInfix sub.toList hay.toList

/-- The first label of `labels` occurring as a substring of `outLower`, or
`deflt` when none does — the `for ... break` loop shared by
`OneShotLLMSystem._parse_response` and `InsuranceClaimsAgent._parse_decision`. -/
def findFirstLabel (labels : List String) (deflt : String) (outLower : String) : String :=
  match labels with
  | [] => deflt
  | l :: ls => if strContains outLower l then l else findFirstLabel ls deflt outLower

/-- Embedding of `OneShotLLMSystem._parse_response` (`evaluation.py`). -/
def parse_response (output : String) : String × String :=
  (findFirstLabel SEVERITY_LEVELS ("medium") (strToLower output),
   findFirstLabel ACTIONS ("investigate") (strToLower output))

/-- Embedding of `InsuranceClaimsAgent._parse_decision` (`agent.py`); its body
is identical to `_parse_response`. -/
def parse_decision (output : String) : String × String :=
  (findFirstLabel SEVERITY_LEVELS ("medium") (strToLower output),
   findFirstLabel ACTIONS ("investigate") (strToLower output))

/-- The label-extraction policy as the spec words it: the first label, in the
fixed enumeration order of the vocabulary, that occurs as a substring of the
lower-cased output; the default when no label occurs.  Kept separate from
`findFirstLabel` so the code's loop can be compared against it. -/
def specFirstLabel (labels : List String) (deflt : String) (outLower : String) : String :=
  (labels.filter (fun l => strContains outLower l)).headD deflt

/-- Embedding of `RuleBasedSystem.process_claim` (`evaluation.py`).  The
coverage limit comes from the policy lookup: `none` models a failed lookup
(the `error` dictionary has no `coverage_limit` key, so `.get` yields `None`).
The rationale's Python number formatting is elided. -/
def ruleBased_process_claim (policyCoverage : Option ℚ) (c : Claim) : Decision :=
  let ra := calculate_risk_score c.claim_amount c.prior_claims c.policy_tenure_years
      c.incident_to_report_days policyCoverage (some c.claimant_age) (some c.location)
  let severity := determineSeverity c.claim_amount
  let action := determineAction severity ra.risk_score c.prior_claims
  { claim_id := c.claim_id
    severity := severity
    action := action
    rationale := "Rule-based decision."
    risk_score := some ra.risk_score }

/-- Embedding of `OneShotLLMSystem.process_claim` (`evaluation.py`).  The LLM
call is opaque: `.ok output` is the returned free text, `.error e` an
exception raised inside the `try` block, caught by the internal handler that
returns severity `medium`, action `investigate`, `"Error: " ++ e` as
rationale, and no `success` key. -/
def oneShot_process_claim (c : Claim) (llmResult : Except String String) : Decision :=
  match llmResult with
  | Except.ok output =>
      let p := parse_response output
      { claim_id := c.claim_id, severity := p.1, action := p.2, rationale := output }
  | Except.error e =>
      { claim_id := c.claim_id, severity := "medium", action := "investigate",
        rationale := "Error: " ++ e }

/-- Embedding of `InsuranceClaimsAgent.process_claim` (`agent.py`).  The agent
loop is opaque: `.ok output` is the final message content, `.error e` an
exception raised inside the `try` block, caught by the handler that returns
severity `unknown`, action `escalate`, success `false`, and the error message
in the rationale. -/
def agent_process_claim (c : Claim) (llmResult : Except String String) : Decision :=
  match llmResult with
  | Except.ok output =>
      let p := parse_decision output
      { claim_id := c.claim_id, severity := p.1, action := p.2, rationale := output,
        success := some true }
  | Except.error e =>
      { claim_id := c.claim_id, severity := "unknown", action := "escalate",
        rationale := "Error processing claim: " ++ e, success := some false }

/-- One row appended to `predictions` by `EvaluationSystem.evaluate_system`. -/
structure Prediction where
  claim_id : String
  predicted_severity : String
  predicted_action : String
  true_severity : String
  true_action : String
deriving DecidableEq

/-- Embedding of the per-claim loop of `EvaluationSystem.evaluate_system`
(`evaluation.py`).  A system is a function that either returns a decision or
raises (`Except.error`); on an exception the harness records the fallback
prediction (severity `unknown`, action `escalate`) and continues with the
next claim. -/
def evaluate_system (sys : Claim → Except String Decision) (claims : List Claim) :
    List Prediction :=
  claims.map (fun c =>
    match sys c with
    | Except.ok d =>
        { claim_id := c.claim_id, predicted_severity := d.severity,
          predicted_action := d.action, true_severity := c.ground_truth_severity,
          true_action := c.ground_truth_action }
    | Except.error _ =>
        { claim_id := c.claim_id, predicted_severity := "unknown",
          predicted_action := "escalate", true_severity := c.ground_truth_severity,
          true_action := c.ground_truth_action })

/-- Confusion matrix with scikit-learn semantics, used by
`EvaluationSystem._calculate_metrics` through
`confusion_matrix(y_true, y_pred, labels=...)`: cell `(i, j)` counts samples
with true label `labels[i]` and predicted label `labels[j]`; samples whose
true or predicted label is not in `labels` appear in no cell. -/
def confusionMatrix (labels : List String) (pairs : List (String × String)) :
    List (List ℕ) :=
  labels.map (fun t => labels.map (fun p =>
    pairs.countP (fun q => q.1 == t && q.2 == p)))

/-- Total cell count of a confusion matrix. -/
def cmTotal (cm : List (List ℕ)) : ℕ := (cm.map (fun row => row.sum)).sum

/-- The (true, predicted) severity pairs handed to `confusion_matrix`. -/
def severityPairs (preds : List Prediction) : List (String × String) :=
  preds.map (fun p => (p.true_severity, p.predicted_severity))

/-- The (true, predicted) action pairs handed to `confusion_matrix`. -/
def actionPairs (preds : List Prediction) : List (String × String) :=
  preds.map (fun p => (p.true_action, p.predicted_action))

/-- Entries of `ClaimsLogger.log_entries`, tagged by their `type` field; each
carries the payload field the queries inspect (`step_name` for agent steps,
tool / system / error names for the others). -/
inductive LogEntry where
  | toolCall (tool_name : String)
  | agentStep (step_name : String)
  | humanOverride (claim_id : String)
  | evaluationResult (system_name : String)
  | errorEntry (error_type : String)
deriving DecidableEq

/-- Count of completed decisions: entries with `type == "agent_step"` and
`step_name == "claim_processed"`, as filtered in `get_override_rate`. -/
def completedDecisionCount (entries : List LogEntry) : ℕ :=
  (entries.filter (fun e =>
    match e with
    | LogEntry.agentStep s => s == "claim_processed"
    | _ => false)).length

/-- Count of `human_override` entries, as filtered in `get_override_rate`. -/
def overrideCount (entries : List LogEntry) : ℕ :=
  (entries.filter (fun e =>
    match e with
    | LogEntry.humanOverride _ => true
    | _ => false)).length

/-- Embedding of `ClaimsLogger.get_override_rate` (`logger.py`): overrides
divided by completed decisions, with an explicit early return of `0.0` when
no decision has completed. -/
def get_override_rate (entries : List LogEntry) : ℚ :=
  let total := completedDecisionCount entries
  if total = 0 then 0
  else (overrideCount entries : ℚ) / (total : ℚ)

/-- A concrete claim used to instantiate hypotheses of proved theorems. -/
def c0 : Claim :=
  { claim_id := "CLM-0001", claim_amount := 2000, prior_claims := 0,
    policy_tenure_years := 5, incident_to_report_days := 5, claimant_age := 40,
    location := "Austin, TX", ground_truth_severity := "low",
    ground_truth_action := "approve" }

/-- A strategy whose `process_claim` raises on every claim, as seen by the
evaluation harness. -/
def sysRaise : Claim → Except String Decision := fun _ => Except.error ("boom")

/-- The agent strategy under an LLM back end that raises: its internal
handler catches the exception, so the harness sees a normal return whose
severity is the fallback label `unknown`. -/
def sysAgentLLMDown : Claim → Except String Decision :=
  fun c => Except.ok (agent_process_claim c (Except.error ("boom")))

/-! ### Helper lemmas -/

/-- Rounding an integer changes nothing. -/
theorem roundHalfEven_intCast (n : ℤ) : roundHalfEven (n : ℚ) = n := by
  unfold roundHalfEven
  rw [Int.floor_intCast]
  norm_num

/-- A weight that is a multiple of 1/20 stays one under an `if · then · else 0`. -/
theorem mult20_ite (b : Prop) [Decidable b] (w : ℚ) (h : ∃ n : ℤ, w * 20 = n) :
    ∃ n : ℤ, (if b then w else 0) * 20 = n := by
  split_ifs
  · exact h
  · exact ⟨0, by norm_num⟩

/-- Multiples of 1/20 are closed under addition. -/
theorem mult20_add {x y : ℚ} (hx : ∃ n : ℤ, x * 20 = n) (hy : ∃ n : ℤ, y * 20 = n) :
    ∃ n : ℤ, (x + y) * 20 = n := by
  obtain ⟨nx, hnx⟩ := hx
  obtain ⟨ny, hny⟩ := hy
  exact ⟨nx + ny, by push_cast; linarith⟩

/-- Every raw risk score is a multiple of 1/20. -/
theorem rawRiskScore_mult20 (a : ℚ) (p t d : ℤ) (cov : Option ℚ) (age : Option ℤ)
    (loc : Option String) :
    ∃ n : ℤ, rawRiskScore a p t d cov age loc * 20 = n := by
  unfold rawRiskScore
  refine mult20_add (mult20_add (mult20_add (mult20_add (mult20_add (mult20_add
    (mult20_ite _ _ ⟨6, by norm_num⟩) (mult20_ite _ _ ⟨5, by norm_num⟩))
    (mult20_ite _ _ ⟨3, by norm_num⟩)) (mult20_ite _ _ ⟨3, by norm_num⟩)) ?_) ?_) ?_
  · rcases cov with _ | cl
    · exact ⟨0, by norm_num⟩
    · exact mult20_ite _ _ ⟨4, by norm_num⟩
  · rcases age with _ | ag
    · exact ⟨0, by norm_num⟩
    · exact mult20_ite _ _ ⟨2, by norm_num⟩
  · rcases loc with _ | l
    · exact ⟨0, by norm_num⟩
    · exact mult20_ite _ _ ⟨1, by norm_num⟩

/-- Capping at 1 preserves being a multiple of 1/20. -/
theorem minCap_mult20 {x : ℚ} (hx : ∃ n : ℤ, x * 20 = n) : ∃ n : ℤ, min x 1 * 20 = n := by
  rcases le_total x 1 with h | h
  · rwa [min_eq_left h]
  · rw [min_eq_right h]
    exact ⟨20, by norm_num⟩

/-- Python's `round(q, 3)` is the identity on multiples of 1/20. -/
theorem pyRound3_eq_self_of_mult20 {q : ℚ} (h : ∃ n : ℤ, q * 20 = n) : pyRound3 q = q := by
  obtain ⟨n, hn⟩ := h
  have h1000 : q * 1000 = ((n * 50 : ℤ) : ℚ) := by push_cast; linarith
  unfold pyRound3
  rw [h1000, roundHalfEven_intCast, eq_comm, eq_div_iff (by norm_num : (1000 : ℚ) ≠ 0)]
  push_cast
  linarith

/-- The score the risk tool returns is exactly the capped raw score: the
final `round(·, 3)` never changes it. -/
theorem risk_score_eq (a : ℚ) (p t d : ℤ) (cov : Option ℚ) (age : Option ℤ)
    (loc : Option String) :
    (calculate_risk_score a p t d cov age loc).risk_score
      = min (rawRiskScore a p t d cov age loc) 1 := by
  show pyRound3 (min (rawRiskScore a p t d cov age loc) 1)
      = min (rawRiskScore a p t d cov age loc) 1
  exact pyRound3_eq_self_of_mult20 (minCap_mult20 (rawRiskScore_mult20 a p t d cov age loc))

/-- A nonnegative-weight rule term is nonnegative. -/
theorem ite_term_nonneg (b : Prop) [Decidable b] {w : ℚ} (hw : 0 ≤ w) :
    0 ≤ if b then w else 0 := by
  split_ifs
  · exact hw
  · exact le_rfl

/-- Raw risk scores are nonnegative. -/
theorem rawRiskScore_nonneg (a : ℚ) (p t d : ℤ) (cov : Option ℚ) (age : Option ℤ)
    (loc : Option String) : 0 ≤ rawRiskScore a p t d cov age loc := by
  unfold rawRiskScore
  refine add_nonneg (add_nonneg (add_nonneg (add_nonneg (add_nonneg (add_nonneg
    (ite_term_nonneg _ (by norm_num)) (ite_term_nonneg _ (by norm_num)))
    (ite_term_nonneg _ (by norm_num))) (ite_term_nonneg _ (by norm_num))) ?_) ?_) ?_
  · rcases cov with _ | cl
    · exact le_rfl
    · exact ite_term_nonneg _ (by norm_num)
  · rcases age with _ | ag
    · exact le_rfl
    · exact ite_term_nonneg _ (by norm_num)
  · rcases loc with _ | l
    · exact le_rfl
    · exact ite_term_nonneg _ (by norm_num)

/-- Monotone comparison of two rule terms with the same nonnegative weight:
if the condition can only become true, the term can only grow. -/
theorem ite_term_mono {b b' : Prop} [Decidable b] [Decidable b'] {w : ℚ} (hw : 0 ≤ w)
    (hbb : b → b') : (if b then w else 0) ≤ if b' then w else 0 := by
  split_ifs with h1 h2
  · exact le_rfl
  · exact absurd (hbb h1) h2
  · exact hw
  · exact le_rfl

/-- The raw risk score is non-decreasing in the claim amount. -/
theorem rawRiskScore_mono_amount {a a' : ℚ} (p t d : ℤ) (cov : Option ℚ) (age : Option ℤ)
    (loc : Option String) (h : a ≤ a') :
    rawRiskScore a p t d cov age loc ≤ rawRiskScore a' p t d cov age loc := by
  unfold rawRiskScore
  refine add_le_add (add_le_add (add_le_add (add_le_add (add_le_add (add_le_add
    (ite_term_mono (by norm_num) (fun hb => lt_of_lt_of_le hb h)) le_rfl) le_rfl)
    le_rfl) ?_) le_rfl) le_rfl
  rcases cov with _ | cl
  · exact le_rfl
  · exact ite_term_mono (by norm_num) (fun hb => ⟨hb.1, lt_of_lt_of_le hb.2 h⟩)

/-- The raw risk score is non-decreasing in the prior-claims count. -/
theorem rawRiskScore_mono_prior (a : ℚ) {p p' : ℤ} (t d : ℤ) (cov : Option ℚ)
    (age : Option ℤ) (loc : Option String) (h : p ≤ p') :
    rawRiskScore a p t d cov age loc ≤ rawRiskScore a p' t d cov age loc := by
  unfold rawRiskScore
  exact add_le_add (add_le_add (add_le_add (add_le_add (add_le_add (add_le_add
    le_rfl (ite_term_mono (by norm_num) (fun hb => le_trans hb h))) le_rfl)
    le_rfl) le_rfl) le_rfl) le_rfl

/-- The raw risk score is non-decreasing in the incident-to-report delay. -/
theorem rawRiskScore_mono_days (a : ℚ) (p t : ℤ) {d d' : ℤ} (cov : Option ℚ)
    (age : Option ℤ) (loc : Option String) (h : d ≤ d') :
    rawRiskScore a p t d cov age loc ≤ rawRiskScore a p t d' cov age loc := by
  unfold rawRiskScore
  exact add_le_add (add_le_add (add_le_add (add_le_add (add_le_add (add_le_add
    le_rfl le_rfl) le_rfl) (ite_term_mono (by norm_num) (fun hb => lt_of_lt_of_le hb h)))
    le_rfl) le_rfl) le_rfl

/-- The first-match-with-break loop equals first-occurring-label-in-
enumeration-order extraction. -/
theorem findFirstLabel_eq_spec (labels : List String) (d out : String) :
    findFirstLabel labels d out = specFirstLabel labels d out := by
  induction labels with
  | nil => rfl
  | cons l ls ih =>
      simp only [findFirstLabel, specFirstLabel, List.filter_cons]
      by_cases h : strContains out l
      · simp [h]
      · simp [h, ih, specFirstLabel]

/-- Membership in a conditional singleton factor segment. -/
theorem mem_ite_singleton {s x : String} {b : Prop} [Decidable b] :
    x ∈ (if b then [s] else ([] : List String)) ↔ b ∧ x = s := by
  split_ifs with hb
  · simp [hb]
  · simp [hb]

/-! ### Claim theorems -/

/-- C2 counterexample: on the spec's concrete scenario (amount 80,000, 4 prior
claims, tenure 0, 45 days to report, coverage limit 100,000, age and location
absent) the factor list is not the claimed five-element list and the score is
not 1.00 — the coverage rule needs `80000 > 0.8 * 100000`, which fails at
equality. -/
theorem c2_counterexample :
    (calculate_risk_score 80000 4 0 45 (some 100000) none none).risk_factors
        ≠ ["high_claim_amount", "multiple_prior_claims", "new_policy", "late_reporting",
           "claim_near_coverage_limit"] ∧
    (calculate_risk_score 80000 4 0 45 (some 100000) none none).risk_score ≠ 1 := by
  constructor
  · norm_num [calculate_risk_score, riskFactorList]
  · rw [risk_score_eq]
    norm_num [rawRiskScore]

/-- C2 (amended): on the concrete scenario amount 80,000, 4 prior claims,
tenure 0, 45 days to report, coverage limit 100,000, age and location absent,
the risk factors are exactly [high_claim_amount, multiple_prior_claims,
new_policy, late_reporting] (the coverage rule does not fire, since the
strict comparison 80,000 > 0.8 × 100,000 fails at equality), the score is
min(0.30 + 0.25 + 0.15 + 0.15, 1.0) = 0.85 with tier high, and the rule-based
triage on that amount, score and prior-claims count yields severity critical
and action escalate. -/
theorem c2_scenario :
    (calculate_risk_score 80000 4 0 45 (some 100000) none none).risk_factors
        = ["high_claim_amount", "multiple_prior_claims", "new_policy", "late_reporting"] ∧
    (calculate_risk_score 80000 4 0 45 (some 100000) none none).risk_score = 17/20 ∧
    (calculate_risk_score 80000 4 0 45 (some 100000) none none).risk_level = "high" ∧
    determineSeverity 80000 = "critical" ∧
    determineAction ("critical") (17/20) 4 = "escalate" := by
  refine ⟨?_, ?_, ?_, ?_, ?_⟩
  · norm_num [calculate_risk_score, riskFactorList]
  · rw [risk_score_eq]
    norm_num [rawRiskScore]
  · norm_num [calculate_risk_score, rawRiskScore, RISK_THRESHOLD_HIGH]
  · norm_num [determineSeverity]
  · norm_num [determineAction]

/-- C3: for every claim amount in the critical band (≥ 75,000), with risk
score 0.2 and no prior claims, the rule chain yields action escalate: rule 2
(severity critical or risk ≥ 0.7) fires, and rule 1's approve path cannot
apply since it requires severity low. -/
theorem c3_critical_band_escalates (amount : ℚ) (h : amount ≥ 75000) :
    determineAction (determineSeverity amount) (2/10) 0 = "escalate" := by
  have hsev : determineSeverity amount = "critical" := by
    unfold determineSeverity
    split_ifs with h1 h2 h3
    · linarith
    · linarith
    · linarith
    · rfl
  rw [hsev]
  unfold determineAction
  rw [if_neg (fun hc => absurd hc.1 (by decide)), if_pos (Or.inl rfl)]

/-- Witness for C3 at amount 80,000. -/
theorem c3_witness : determineAction (determineSeverity 80000) (2/10) 0 = "escalate" :=
  c3_critical_band_escalates 80000 (by decide)

/-- C4: the risk score returned by the scorer is non-decreasing in the claim
amount, in the prior-claims count, and in the incident-to-report delay, each
with all other inputs held fixed. -/
theorem c4_risk_score_monotone :
    (∀ (a a' : ℚ) (p t d : ℤ) (cov : Option ℚ) (age : Option ℤ) (loc : Option String),
        a ≤ a' →
        (calculate_risk_score a p t d cov age loc).risk_score
          ≤ (calculate_risk_score a' p t d cov age loc).risk_score) ∧
    (∀ (a : ℚ) (p p' t d : ℤ) (cov : Option ℚ) (age : Option ℤ) (loc : Option String),
        p ≤ p' →
        (calculate_risk_score a p t d cov age loc).risk_score
          ≤ (calculate_risk_score a p' t d cov age loc).risk_score) ∧
    (∀ (a : ℚ) (p t d d' : ℤ) (cov : Option ℚ) (age : Option ℤ) (loc : Option String),
        d ≤ d' →
        (calculate_risk_score a p t d cov age loc).risk_score
          ≤ (calculate_risk_score a p t d' cov age loc).risk_score) := by
  refine ⟨?_, ?_, ?_⟩
  · intro a a' p t d cov age loc h
    rw [risk_score_eq, risk_score_eq]
    exact min_le_min (rawRiskScore_mono_amount p t d cov age loc h) le_rfl
  · intro a p p' t d cov age loc h
    rw [risk_score_eq, risk_score_eq]
    exact min_le_min (rawRiskScore_mono_prior a t d cov age loc h) le_rfl
  · intro a p t d d' cov age loc h
    rw [risk_score_eq, risk_score_eq]
    exact min_le_min (rawRiskScore_mono_days a p t cov age loc h) le_rfl

/-- Witness for C4: one concrete increase in each of the three coordinates. -/
theorem c4_witness :
    (calculate_risk_score 40000 1 2 10 none none none).risk_score
        ≤ (calculate_risk_score 60000 1 2 10 none none none).risk_score ∧
    (calculate_risk_score 40000 1 2 10 none none none).risk_score
        ≤ (calculate_risk_score 40000 4 2 10 none none none).risk_score ∧
    (calculate_risk_score 40000 1 2 10 none none none).risk_score
        ≤ (calculate_risk_score 40000 1 2 40 none none none).risk_score :=
  ⟨c4_risk_score_monotone.1 40000 60000 1 2 10 none none none (by decide),
   c4_risk_score_monotone.2.1 40000 1 4 2 10 none none none (by decide),
   c4_risk_score_monotone.2.2 40000 1 2 10 40 none none none (by decide)⟩

/-- C5: for every input, including every combination of present and absent
optional inputs, the returned risk score lies in the closed interval [0, 1]. -/
theorem c5_risk_score_bounded (a : ℚ) (p t d : ℤ) (cov : Option ℚ) (age : Option ℤ)
    (loc : Option String) :
    0 ≤ (calculate_risk_score a p t d cov age loc).risk_score ∧
    (calculate_risk_score a p t d cov age loc).risk_score ≤ 1 := by
  rw [risk_score_eq]
  exact ⟨le_min (rawRiskScore_nonneg a p t d cov age loc) zero_le_one, min_le_right _ _⟩

/-- C9: whenever the audit log holds no completed-decision entry (no
`agent_step` entry with step name `claim_processed`), the override rate is
exactly 0, however many human-override entries are recorded. -/
theorem c9_override_rate_zero (entries : List LogEntry)
    (h : completedDecisionCount entries = 0) : get_override_rate entries = 0 := by
  unfold get_override_rate
  simp [h]

/-- Witness for C9: a log with two overrides and no completed decision. -/
theorem c9_witness :
    completedDecisionCount [LogEntry.humanOverride ("CLM-1"), LogEntry.humanOverride ("CLM-2")]
        = 0 ∧
    get_override_rate [LogEntry.humanOverride ("CLM-1"), LogEntry.humanOverride ("CLM-2")] = 0 :=
  ⟨by decide, c9_override_rate_zero _ (by decide)⟩

/-- C10: the rule-based system's action is always one of approve,
investigate, escalate — never deny, although deny belongs to the action
vocabulary. -/
theorem c10_no_deny (cov : Option ℚ) (c : Claim) :
    (ruleBased_process_claim cov c).action ∈ (["approve", "investigate", "escalate"] : List String) ∧
    (ruleBased_process_claim cov c).action ≠ "deny" ∧
    "deny" ∈ ACTIONS := by
  have key : ∀ (sev : String) (r : ℚ) (pc : ℤ),
      determineAction sev r pc ∈ (["approve", "investigate", "escalate"] : List String) := by
    intro sev r pc
    unfold determineAction
    split_ifs <;> simp
  have hmem : (ruleBased_process_claim cov c).action
      ∈ (["approve", "investigate", "escalate"] : List String) := by
    show determineAction _ _ _ ∈ _
    exact key _ _ _
  refine ⟨hmem, ?_, by simp [ACTIONS]⟩
  intro hdeny
  rw [hdeny] at hmem
  simp at hmem

/-- C6 counterexample: coverage limit supplied with value 0 and amount 100,
so the rule's stated condition amount > 0.8 × coverage limit holds, yet the
factor claim_near_coverage_limit is not produced — Python's
`if coverage_limit and ...` treats the supplied 0 as falsy and skips the
rule. -/
theorem c6_counterexample :
    (100 : ℚ) > 0 * (4/5) ∧
    "claim_near_coverage_limit"
        ∉ (calculate_risk_score 100 0 5 0 (some 0) none none).risk_factors := by
  constructor
  · norm_num
  · show "claim_near_coverage_limit" ∉ riskFactorList 100 0 5 0 (some 0) none none
    norm_num [riskFactorList]

/-- C6 (amended): when the coverage limit is supplied, the coverage rule
contributes +0.20 to the running total and the factor
claim_near_coverage_limit exactly when the supplied limit is nonzero (Python
truthiness) and the amount exceeds 0.8 × limit; when the claimant age is
supplied, the age rule contributes +0.10 and the factor age_risk_factor
exactly when the supplied age is nonzero and below 25 or above 75; absent
(or zero, hence falsy) optional inputs skip their rule. -/
theorem c6_optional_rules :
    (∀ (a : ℚ) (p t d : ℤ) (cl : ℚ) (age : Option ℤ) (loc : Option String),
        ("claim_near_coverage_limit"
            ∈ (calculate_risk_score a p t d (some cl) age loc).risk_factors
          ↔ cl ≠ 0 ∧ a > cl * (4/5)) ∧
        rawRiskScore a p t d (some cl) age loc
          = rawRiskScore a p t d none age loc
              + (if cl ≠ 0 ∧ a > cl * (4/5) then (1 : ℚ)/5 else 0)) ∧
    (∀ (a : ℚ) (p t d : ℤ) (cov : Option ℚ) (ag : ℤ) (loc : Option String),
        ("age_risk_factor" ∈ (calculate_risk_score a p t d cov (some ag) loc).risk_factors
          ↔ ag ≠ 0 ∧ (ag < 25 ∨ ag > 75)) ∧
        rawRiskScore a p t d cov (some ag) loc
          = rawRiskScore a p t d cov none loc
              + (if ag ≠ 0 ∧ (ag < 25 ∨ ag > 75) then (1 : ℚ)/10 else 0)) ∧
    (∀ (a : ℚ) (p t d : ℤ) (age : Option ℤ) (loc : Option String),
        "claim_near_coverage_limit"
          ∉ (calculate_risk_score a p t d none age loc).risk_factors) ∧
    (∀ (a : ℚ) (p t d : ℤ) (cov : Option ℚ) (loc : Option String),
        "age_risk_factor" ∉ (calculate_risk_score a p t d cov none loc).risk_factors) := by
  refine ⟨?_, ?_, ?_, ?_⟩
  · intro a p t d cl age loc
    constructor
    · show "claim_near_coverage_limit" ∈ riskFactorList a p t d (some cl) age loc ↔ _
      unfold riskFactorList
      rcases age with _ | ag <;> rcases loc with _ | l <;>
        simp [List.mem_append, mem_ite_singleton]
    · unfold rawRiskScore
      ring
  · intro a p t d cov ag loc
    constructor
    · show "age_risk_factor" ∈ riskFactorList a p t d cov (some ag) loc ↔ _
      unfold riskFactorList
      rcases cov with _ | cl <;> rcases loc with _ | l <;>
        simp [List.mem_append, mem_ite_singleton]
    · unfold rawRiskScore
      ring
  · intro a p t d age loc
    show "claim_near_coverage_limit" ∉ riskFactorList a p t d none age loc
    unfold riskFactorList
    rcases age with _ | ag <;> rcases loc with _ | l <;>
      simp [List.mem_append, mem_ite_singleton]
  · intro a p t d cov loc
    show "age_risk_factor" ∉ riskFactorList a p t d cov none loc
    unfold riskFactorList
    rcases cov with _ | cl <;> rcases loc with _ | l <;>
      simp [List.mem_append, mem_ite_singleton]

/-- C8: both label-extraction routines return, for severity and for action,
the first label in the fixed enumeration order of the vocabulary that occurs
as a substring of the lower-cased output — enumeration order wins regardless
of position in the text — and default to medium / investigate when no label
occurs (the `headD` default applies exactly when the filtered occurrence
list is empty). -/
theorem c8_label_extraction (output : String) :
    parse_response output
        = (specFirstLabel SEVERITY_LEVELS ("medium") (strToLower output),
           specFirstLabel ACTIONS ("investigate") (strToLower output)) ∧
    parse_decision output
        = (specFirstLabel SEVERITY_LEVELS ("medium") (strToLower output),
           specFirstLabel ACTIONS ("investigate") (strToLower output)) := by
  unfold parse_response parse_decision
  rw [findFirstLabel_eq_spec, findFirstLabel_eq_spec]
  exact ⟨rfl, rfl⟩

/-- C1 counterexample: when an exception is raised inside the single-shot
system's `process_claim`, the decision returned by its internal handler has
severity medium and action investigate — not severity unknown, action
escalate, success false as the claim states for every strategy. -/
theorem c1_counterexample :
    (oneShot_process_claim c0 (Except.error ("timeout"))).severity = "medium" ∧
    (oneShot_process_claim c0 (Except.error ("timeout"))).action = "investigate" ∧
    ¬((oneShot_process_claim c0 (Except.error ("timeout"))).severity = "unknown" ∧
      (oneShot_process_claim c0 (Except.error ("timeout"))).action = "escalate" ∧
      (oneShot_process_claim c0 (Except.error ("timeout"))).success = some false) := by
  decide

/-- C1 (amended): when an exception is raised inside the iterative agent's
`process_claim`, the returned decision has severity unknown, action escalate,
success false, and the error message in the rationale; when an exception is
raised inside the single-shot system's `process_claim`, its internal handler
instead returns severity medium, action investigate, the error message as
rationale and no success flag; and an exception that escapes a strategy's
`process_claim` is caught by the evaluation harness, which records the
fallback prediction (severity unknown, action escalate) for that claim while
the batch continues — one prediction per claim, in order. -/
theorem c1_fail_safe :
    (∀ (c : Claim) (e : String),
        agent_process_claim c (Except.error e)
          = { claim_id := c.claim_id, severity := "unknown", action := "escalate",
              rationale := "Error processing claim: " ++ e, success := some false }) ∧
    (∀ (c : Claim) (e : String),
        oneShot_process_claim c (Except.error e)
          = { claim_id := c.claim_id, severity := "medium", action := "investigate",
              rationale := "Error: " ++ e }) ∧
    (∀ (sys : Claim → Except String Decision) (claims : List Claim),
        (evaluate_system sys claims).length = claims.length) ∧
    (∀ (sys : Claim → Except String Decision) (claims : List Claim) (c : Claim) (e : String),
        c ∈ claims → sys c = Except.error e →
        ({ claim_id := c.claim_id, predicted_severity := "unknown",
           predicted_action := "escalate", true_severity := c.ground_truth_severity,
           true_action := c.ground_truth_action } : Prediction) ∈ evaluate_system sys claims) := by
  refine ⟨fun c e => rfl, fun c e => rfl, ?_, ?_⟩
  · intro sys claims
    simp [evaluate_system]
  · intro sys claims c e hmem hsys
    unfold evaluate_system
    have hfc : (fun c => match sys c with
        | Except.ok d =>
            ({ claim_id := c.claim_id, predicted_severity := d.severity,
               predicted_action := d.action, true_severity := c.ground_truth_severity,
               true_action := c.ground_truth_action } : Prediction)
        | Except.error _ =>
            { claim_id := c.claim_id, predicted_severity := "unknown",
              predicted_action := "escalate", true_severity := c.ground_truth_severity,
              true_action := c.ground_truth_action }) c
        = { claim_id := c.claim_id, predicted_severity := "unknown",
            predicted_action := "escalate", true_severity := c.ground_truth_severity,
            true_action := c.ground_truth_action } := by
      simp only [hsys]
    exact hfc ▸ List.mem_map_of_mem _ hmem

/-- Witness for C1: a batch of one claim under an always-raising strategy
still yields one prediction, and it is the fallback. -/
theorem c1_fail_safe_witness :
    (evaluate_system sysRaise [c0]).length = 1 ∧
    ({ claim_id := "CLM-0001", predicted_severity := "unknown",
       predicted_action := "escalate", true_severity := "low",
       true_action := "approve" } : Prediction) ∈ evaluate_system sysRaise [c0] :=
  ⟨c1_fail_safe.2.2.1 sysRaise [c0],
   c1_fail_safe.2.2.2 sysRaise [c0] c0 ("boom") (List.mem_singleton.mpr rfl) rfl⟩

/-- Summing a zero-valued map gives zero. -/
theorem sumMapZero (l : List String) : (l.map (fun _ => (0 : ℕ))).sum = 0 := by
  induction l with
  | nil => rfl
  | cons a l ih => simp

/-- Summing a pointwise sum splits. -/
theorem sumMapAdd (l : List String) (f g : String → ℕ) :
    (l.map (fun x => f x + g x)).sum = (l.map f).sum + (l.map g).sum := by
  induction l with
  | nil => rfl
  | cons a l ih =>
      simp only [List.map_cons, List.sum_cons, ih]
      omega

/-- Summing a weighted point indicator over a duplicate-free list yields the
weight exactly when the point is in the list. -/
theorem sumIndicator (x : String) (w : ℕ) (labels : List String) :
    labels.Nodup →
      (labels.map (fun p => if x = p then w else 0)).sum = if x ∈ labels then w else 0 := by
  induction labels with
  | nil => intro _; simp
  | cons a l ih =>
      intro hnd
      obtain ⟨ha, hl⟩ := List.nodup_cons.mp hnd
      rw [List.map_cons, List.sum_cons, ih hl]
      by_cases h : x = a
      · subst h
        rw [if_pos rfl, if_neg ha, if_pos (List.mem_cons_self _ _)]
        omega
      · rw [if_neg h]
        by_cases hm : x ∈ l
        · rw [if_pos hm, if_pos (List.mem_cons.mpr (Or.inr hm))]
          omega
        · rw [if_neg hm, if_neg (by simp [List.mem_cons, h, hm])]

/-- One confusion-matrix row's contribution of a single sample. -/
theorem rowIndicator (labels : List String) (hnd : labels.Nodup) (x y t : String) :
    (labels.map (fun p => if x = t ∧ y = p then (1 : ℕ) else 0)).sum
      = if x = t ∧ y ∈ labels then 1 else 0 := by
  by_cases h : x = t
  · simp only [h, true_and]
    exact sumIndicator y 1 labels hnd
  · have hz : ∀ p : String, (if x = t ∧ y = p then (1 : ℕ) else 0) = 0 := fun p => by simp [h]
    simp only [hz]
    rw [sumMapZero, if_neg (fun hc => h hc.1)]

/-- Total cell count of a confusion matrix over a duplicate-free label list:
each sample contributes one cell when both its labels are in the list, and no
cell otherwise. -/
theorem cmTotal_countP (labels : List String) (hnd : labels.Nodup)
    (pairs : List (String × String)) :
    cmTotal (confusionMatrix labels pairs)
      = pairs.countP (fun q => decide (q.1 ∈ labels) && decide (q.2 ∈ labels)) := by
  induction pairs with
  | nil => simp [cmTotal, confusionMatrix, List.countP_nil, sumMapZero]
  | cons q rest ih =>
      have hcell : ∀ t p : String,
          List.countP (fun r => r.1 == t && r.2 == p) (q :: rest)
            = List.countP (fun r => r.1 == t && r.2 == p) rest
              + (if q.1 = t ∧ q.2 = p then 1 else 0) := by
        intro t p
        rw [List.countP_cons]
        congr 1
        by_cases hh : q.1 = t ∧ q.2 = p
        · simp [hh.1, hh.2]
        · simp only [if_neg hh]
          simp [Bool.and_eq_true, beq_iff_eq]
          intro h1 h2
          exact hh ⟨h1, h2⟩
      have step : ∀ t : String,
          (labels.map (fun p => List.countP (fun r => r.1 == t && r.2 == p) (q :: rest))).sum
            = (labels.map (fun p => List.countP (fun r => r.1 == t && r.2 == p) rest)).sum
              + (if q.1 = t ∧ q.2 ∈ labels then 1 else 0) := by
        intro t
        simp only [hcell]
        rw [sumMapAdd]
        congr 1
        exact rowIndicator labels hnd q.1 q.2 t
      simp only [cmTotal, confusionMatrix, List.map_map, Function.comp_def] at ih ⊢
      simp only [step]
      rw [sumMapAdd, ih, List.countP_cons]
      congr 1
      by_cases h2 : q.2 ∈ labels
      · simp only [h2, and_true]
        rw [sumIndicator q.1 1 labels hnd]
        by_cases h1 : q.1 ∈ labels
        · simp [h1, h2]
        · simp [h1]
      · have hz : ∀ t : String, (if q.1 = t ∧ q.2 ∈ labels then (1 : ℕ) else 0) = 0 :=
          fun t => by simp [h2]
        simp only [hz]
        rw [sumMapZero]
        simp [h2]

/-- C7 counterexample: a batch of one claim processed by the agent strategy
with a failing LLM back end produces a prediction whose severity is the
fallback label unknown; the severity confusion matrix (over the fixed
severity vocabulary) then has total cell count 0, not the batch size 1 —
scikit-learn drops samples whose predicted label is outside `labels`. -/
theorem c7_counterexample :
    (evaluate_system sysAgentLLMDown [c0]).length = 1 ∧
    cmTotal (confusionMatrix SEVERITY_LEVELS
        (severityPairs (evaluate_system sysAgentLLMDown [c0]))) = 0 := by
  decide

/-- C7 (amended): for every prediction batch, the total cell count of the
severity (resp. action) confusion matrix equals the number of predictions
whose true and predicted severity (resp. action) labels both lie in the
fixed vocabulary; in particular it equals the batch size N exactly on
batches with all labels in-vocabulary, while each fallback prediction with
severity unknown is dropped from the severity matrix. -/
theorem c7_cm_totals :
    (∀ (preds : List Prediction),
        cmTotal (confusionMatrix SEVERITY_LEVELS (severityPairs preds))
          = (severityPairs preds).countP
              (fun q => decide (q.1 ∈ SEVERITY_LEVELS) && decide (q.2 ∈ SEVERITY_LEVELS)) ∧
        cmTotal (confusionMatrix ACTIONS (actionPairs preds))
          = (actionPairs preds).countP
              (fun q => decide (q.1 ∈ ACTIONS) && decide (q.2 ∈ ACTIONS))) ∧
    (∀ (preds : List Prediction),
        (∀ p ∈ preds,
            p.true_severity ∈ SEVERITY_LEVELS ∧ p.predicted_severity ∈ SEVERITY_LEVELS ∧
            p.true_action ∈ ACTIONS ∧ p.predicted_action ∈ ACTIONS) →
        cmTotal (confusionMatrix SEVERITY_LEVELS (severityPairs preds)) = preds.length ∧
        cmTotal (confusionMatrix ACTIONS (actionPairs preds)) = preds.length) := by
  have hsevnd : SEVERITY_LEVELS.Nodup := by decide
  have hactnd : ACTIONS.Nodup := by decide
  refine ⟨fun preds => ⟨cmTotal_countP _ hsevnd _, cmTotal_countP _ hactnd _⟩, ?_⟩
  intro preds h
  constructor
  · rw [cmTotal_countP _ hsevnd]
    have hall : (severityPairs preds).countP
        (fun q => decide (q.1 ∈ SEVERITY_LEVELS) && decide (q.2 ∈ SEVERITY_LEVELS))
          = (severityPairs preds).length := by
      rw [List.countP_eq_length]
      intro q hq
      obtain ⟨p, hp, rfl⟩ := List.mem_map.mp hq
      simp [(h p hp).1, (h p hp).2.1]
    rw [hall]
    simp [severityPairs]
  · rw [cmTotal_countP _ hactnd]
    have hall : (actionPairs preds).countP
        (fun q => decide (q.1 ∈ ACTIONS) && decide (q.2 ∈ ACTIONS))
          = (actionPairs preds).length := by
      rw [List.countP_eq_length]
      intro q hq
      obtain ⟨p, hp, rfl⟩ := List.mem_map.mp hq
      simp [(h p hp).2.2.1, (h p hp).2.2.2]
    rw [hall]
    simp [actionPairs]

/-- Witness for C7 (amended): a singleton batch with in-vocabulary labels
gives total cell count 1 in both matrices. -/
theorem c7_cm_totals_witness :
    cmTotal (confusionMatrix SEVERITY_LEVELS (severityPairs
        [{ claim_id := "CLM-0001", predicted_severity := "low",
           predicted_action := "approve", true_severity := "low",
           true_action := "approve" }])) = 1 ∧
    cmTotal (confusionMatrix ACTIONS (actionPairs
        [{ claim_id := "CLM-0001", predicted_severity := "low",
           predicted_action := "approve", true_severity := "low",
           true_action := "approve" }])) = 1 :=
  c7_cm_totals.2
    [{ claim_id := "CLM-0001", predicted_severity := "low", predicted_action := "approve",
       true_severity := "low", true_action := "approve" }] (by decide)

end Claims
